import Mathlib

/-!
Shallow embedding of the OpenF1 client library (`src/unnamed/part_000`, the
file `api.ts` of the repository, plus `src/src/lib/api.ts`).

The network is modelled as an environment `Env` of upstream responses.  A
JavaScript `fetch(url).then(r => r.json())` chain is modelled as an
`Except Err` value: a rejected fetch or a JSON parse failure is an `Err`,
a parsed body is `Except.ok`.  For the `car_data` endpoint the HTTP
response object itself is modelled (`HttpResponse`), because
`src/src/lib/api.ts` inspects `response.ok` and `response.status` while
`part_000` does not; both behaviours must be distinguishable.

JSON numbers are modelled as `ℚ`; JSON values that the code inspects
dynamically (the `drs` field, compared with `===` against the string "1")
are modelled by `JsonVal`; `null`-able numbers by `Option ℚ`.
-/

/-- A JSON value as far as the code inspects it dynamically.  JavaScript
strict equality `===` between two such values is Lean equality on this
type: values of different shapes are never equal. -/
inductive JsonVal where
  | jnull : JsonVal
  | jstr (s : String) : JsonVal
  | jnum (q : ℚ) : JsonVal
  | jbool (b : Bool) : JsonVal
deriving DecidableEq, Repr

/-- Errors a modelled operation can fail with, mirroring the `throw` sites
and rejection modes of the source. -/
inductive Err where
  /-- `new Error("Meeting not found for <year> <event>")` in `getMeetingKey`. -/
  | meetingNotFound (year : Nat) (event : String) : Err
  /-- `new Error("Session '<session>' not found for meeting <mk>")` in `getSessionKey`. -/
  | sessionNotFound (session : String) (meetingKey : Nat) : Err
  /-- `new Error("HTTP error! status: <status>")` in `src/src/lib/api.ts`. -/
  | httpError (status : Nat) : Err
  /-- `r.json()` rejected: malformed JSON body. -/
  | parseError : Err
  /-- `fetch` itself rejected (network failure). -/
  | network : Err
deriving DecidableEq, Repr

/-- An HTTP response before `.json()` is called: `ok`/`status` as on the
JavaScript `Response` object, and the outcome of parsing the body. -/
structure HttpResponse (α : Type) where
  ok : Bool
  status : Nat
  json : Except Err α

/-- `needle` is a prefix of `hay` (character lists). -/
def startsWithChars : List Char → List Char → Bool
  | _, [] => true
  | [], _ :: _ => false
  | c :: hs, n :: ns => c == n && startsWithChars hs ns

/-- `needle` occurs contiguously inside `hay`, like JavaScript
`hay.includes(needle)`; an empty needle is contained in everything. -/
def hasSubChars (needle : List Char) : List Char → Bool
  | [] => needle.isEmpty
  | c :: hs => startsWithChars (c :: hs) needle || hasSubChars needle hs

/-- Per-character lowercasing of a string, as `toLowerCase()` does over
the alphabetic range. -/
def lowerChars (s : String) : List Char :=
  s.toList.map Char.toLower

/-- JavaScript `hay.toLowerCase().includes(frag.toLowerCase())`, the match
test used by both resolvers. -/
def includesCI (hay frag : String) : Bool :=
  hasSubChars (lowerChars frag) (lowerChars hay)

/-- One record of the `meetings` endpoint, the fields the code reads. -/
structure Meeting where
  meeting_key : Nat
  name : String
deriving DecidableEq, Repr

/-- One record of the `sessions` endpoint, the fields the code reads. -/
structure Session where
  session_key : Nat
  name : String
deriving DecidableEq, Repr

/-- One record of the `laps` endpoint, the fields the code reads
(`lap_time` may be `null`). -/
structure Lap where
  lap_number : Nat
  lap_time : Option ℚ
deriving DecidableEq, Repr

/-- One raw telemetry sample of the `car_data` endpoint as read by
`part_000`; `drs` is kept as a raw JSON value because the code compares it
with `=== '1'`. -/
structure RawSample where
  distance : ℚ
  speed : ℚ
  throttle : ℚ
  brake : ℚ
  rpm : ℚ
  n_gear : ℚ
  longitude : ℚ
  latitude : ℚ
  drs : JsonVal
deriving DecidableEq, Repr

/-- `interface SpeedDataPoint` of `part_000`. -/
structure SpeedDataPoint where
  Distance : ℚ
  Speed : ℚ
deriving DecidableEq, Repr

/-- `interface GearMapDataPoint` of `part_000`. -/
structure GearMapDataPoint where
  X : ℚ
  Y : ℚ
  nGear : ℚ
deriving DecidableEq, Repr

/-- `interface ThrottleDataPoint` of `part_000`. -/
structure ThrottleDataPoint where
  Distance : ℚ
  Throttle : ℚ
deriving DecidableEq, Repr

/-- `interface BrakeDataPoint` of `part_000`. -/
structure BrakeDataPoint where
  Distance : ℚ
  Brake : ℚ
deriving DecidableEq, Repr

/-- `interface RPMDataPoint` of `part_000`. -/
structure RPMDataPoint where
  Distance : ℚ
  RPM : ℚ
deriving DecidableEq, Repr

/-- `interface DRSDataPoint` of `part_000`. -/
structure DRSDataPoint where
  Distance : ℚ
  DRS : ℚ
deriving DecidableEq, Repr

/-- One row of the merged lap-time table (`interface LapTimeDataPoint`): a
JavaScript object `{ LapNumber: n, [driverCode]: time }`.  The dynamic
driver columns are an insertion-ordered association list, matching object
property order. -/
structure LapTimeRow where
  LapNumber : Nat
  cols : List (String × Option ℚ)
deriving DecidableEq, Repr

/-- JavaScript property assignment `row[d] = v`: overwrite an existing key
in place, otherwise append in insertion order. -/
def setCol (cols : List (String × Option ℚ)) (d : String) (v : Option ℚ) :
    List (String × Option ℚ) :=
  if cols.any (fun c => c.1 == d) then
    cols.map (fun c => if c.1 == d then (d, v) else c)
  else
    cols ++ [(d, v)]

/-- `interface StintAnalysisData` of `part_000` (only named fields; its
contents never flow through the code, which returns an empty list). -/
structure StintAnalysisData where
  driverCode : String
  stintNumber : Nat
  compound : String
  startLap : Nat
  endLap : Nat
deriving DecidableEq, Repr

/-- `interface RaceResult` of `part_000` (passed through `r.json()` unchanged). -/
structure RaceResult where
  round : Nat
  driver : String
  team : String
  teamColor : String
deriving DecidableEq, Repr

/-- `interface DetailedRaceResult` of `part_000` (passed through unchanged). -/
structure DetailedRaceResult where
  position : Option Nat
  driverCode : String
  fullName : String
  team : String
  points : ℚ
  status : String
  teamColor : String
deriving DecidableEq, Repr

/-- `interface DriverStanding` of `part_000` (passed through unchanged). -/
structure DriverStanding where
  rank : Nat
  code : String
  name : String
  team : String
  points : ℚ
  wins : Nat
  podiums : Nat
deriving DecidableEq, Repr

/-- `interface TeamStanding` of `part_000` (passed through unchanged). -/
structure TeamStanding where
  rank : Nat
  team : String
  points : ℚ
  wins : Nat
  podiums : Nat
deriving DecidableEq, Repr

/-- `interface CarDataPoint` of `src/src/lib/api.ts` (there `drs` is typed
as a plain number). -/
structure CarDataPoint where
  brake : ℚ
  date : String
  driver_number : Nat
  drs : ℚ
  meeting_key : Nat
  n_gear : ℚ
  rpm : ℚ
  session_key : Nat
  speed : ℚ
  throttle : ℚ
deriving DecidableEq, Repr

/-- The upstream API: every endpoint the verified functions reach, as a
function from its query parameters to the outcome of
`fetch(url).then(r => r.json())` (for `car_data`, to the `Response`
object itself, since `src/src/lib/api.ts` inspects `response.ok`). -/
structure Env where
  /-- `GET /meetings?year=` -/
  meetings : Nat → Except Err (List Meeting)
  /-- `GET /sessions?meeting_key=` -/
  sessions : Nat → Except Err (List Session)
  /-- `GET /laps?session_key=&driver_number=` -/
  laps : Nat → String → Except Err (List Lap)
  /-- `GET /car_data?session_key=&driver_number=&lap_number=` as issued by
  `part_000` (the response object, pre-`.json()`). -/
  carData : Nat → String → Nat → Except Err (HttpResponse (List RawSample))
  /-- `GET /car_data?driver_number=&session_key=[&speed>=]` as issued by
  `src/src/lib/api.ts` `fetchCarData`. -/
  carDataRaw : Nat → Nat → Option ℚ → Except Err (HttpResponse (List CarDataPoint))
  /-- `GET /results/races?meeting_key=` -/
  raceResults : Nat → Except Err (List RaceResult)
  /-- `GET /results/race/{year}?meeting_key=` -/
  specificRaceResults : Nat → Nat → Except Err (List DetailedRaceResult)
  /-- `GET /standings/drivers?meeting_key=` -/
  driverStandings : Nat → Except Err (List DriverStanding)
  /-- `GET /standings/constructors?meeting_key=` -/
  teamStandings : Nat → Except Err (List TeamStanding)

/-- `getMeetingKey(year, event)` of `part_000`: fetch the year's meetings,
take the first whose lowercased name contains the lowercased event
fragment, else throw. -/
def getMeetingKey (env : Env) (year : Nat) (event : String) : Except Err Nat :=
  match env.meetings year with
  | Except.error e => Except.error e
  | Except.ok list =>
      match list.find? (fun m => includesCI m.name event) with
      | some m => Except.ok m.meeting_key
      | none => Except.error (Err.meetingNotFound year event)

/-- `getSessionKey(meetingKey, session)` of `part_000`. -/
def getSessionKey (env : Env) (meetingKey : Nat) (session : String) : Except Err Nat :=
  match env.sessions meetingKey with
  | Except.error e => Except.error e
  | Except.ok list =>
      match list.find? (fun s => includesCI s.name session) with
      | some s => Except.ok s.session_key
      | none => Except.error (Err.sessionNotFound session meetingKey)

/-- The body of the `laps.forEach` callback in `fetchLapTimes`: fold one
lap of driver `d` into the table `all`. -/
def mergeOneLap (d : String) (all : List LapTimeRow) (lap : Lap) : List LapTimeRow :=
  match all.find? (fun x => x.LapNumber == lap.lap_number) with
  | some _ =>
      all.map (fun x =>
        if x.LapNumber == lap.lap_number then
          { x with cols := setCol x.cols d lap.lap_time }
        else x)
  | none => all ++ [{ LapNumber := lap.lap_number, cols := [(d, lap.lap_time)] }]

/-- `laps.forEach(...)` over one driver's lap list. -/
def mergeDriverLaps (d : String) (all : List LapTimeRow) (laps : List Lap) :
    List LapTimeRow :=
  laps.foldl (mergeOneLap d) all

/-- The `for (const d of drivers)` loop of `fetchLapTimes`: sequentially
fetch each driver's laps and fold them into the shared table; a failing
fetch rejects the whole loop. -/
def lapTimesLoop (fetchLaps : String → Except Err (List Lap)) :
    List String → List LapTimeRow → Except Err (List LapTimeRow)
  | [], all => Except.ok all
  | d :: ds, all =>
      match fetchLaps d with
      | Except.error e => Except.error e
      | Except.ok laps => lapTimesLoop fetchLaps ds (mergeDriverLaps d all laps)

/-- `fetchLapTimes(year, event, session, drivers)` of `part_000`. -/
def fetchLapTimes (env : Env) (year : Nat) (event session : String)
    (drivers : List String) : Except Err (List LapTimeRow) :=
  match getMeetingKey env year event with
  | Except.error e => Except.error e
  | Except.ok mk =>
      match getSessionKey env mk session with
      | Except.error e => Except.error e
      | Except.ok sk => lapTimesLoop (env.laps sk) drivers []

/-- Projection applied per sample by `fetchTelemetrySpeed`. -/
def speedProj (p : RawSample) : SpeedDataPoint :=
  { Distance := p.distance, Speed := p.speed }

/-- Projection applied per sample by `fetchTelemetryGear`. -/
def gearProj (p : RawSample) : GearMapDataPoint :=
  { X := p.longitude, Y := p.latitude, nGear := p.n_gear }

/-- Projection applied per sample by `fetchTelemetryThrottle`. -/
def throttleProj (p : RawSample) : ThrottleDataPoint :=
  { Distance := p.distance, Throttle := p.throttle }

/-- Projection applied per sample by `fetchTelemetryBrake`. -/
def brakeProj (p : RawSample) : BrakeDataPoint :=
  { Distance := p.distance, Brake := p.brake }

/-- Projection applied per sample by `fetchTelemetryRPM`. -/
def rpmProj (p : RawSample) : RPMDataPoint :=
  { Distance := p.distance, RPM := p.rpm }

/-- The DRS normalization `p.drs === '1' ? 1 : 0` of `fetchTelemetryDRS`. -/
def drsValue (v : JsonVal) : ℚ :=
  if v = JsonVal.jstr "1" then 1 else 0

/-- Projection applied per sample by `fetchTelemetryDRS`. -/
def drsProj (p : RawSample) : DRSDataPoint :=
  { Distance := p.distance, DRS := drsValue p.drs }

/-- Shared shape of the six `fetchTelemetry*` functions of `part_000`:
resolve keys, `fetch(car_data).then(r => r.json())` (the response's `ok`
flag is never consulted), map the projection. -/
def fetchTelemetryWith {α : Type} (proj : RawSample → α) (env : Env)
    (year : Nat) (event session driver : String) (lap : Nat) :
    Except Err (List α) :=
  match getMeetingKey env year event with
  | Except.error e => Except.error e
  | Except.ok mk =>
      match getSessionKey env mk session with
      | Except.error e => Except.error e
      | Except.ok sk =>
          match env.carData sk driver lap with
          | Except.error e => Except.error e
          | Except.ok resp =>
              match resp.json with
              | Except.error e => Except.error e
              | Except.ok data => Except.ok (data.map proj)

/-- `fetchTelemetrySpeed` of `part_000`. -/
def fetchTelemetrySpeed (env : Env) (year : Nat) (event session driver : String)
    (lap : Nat) : Except Err (List SpeedDataPoint) :=
  fetchTelemetryWith speedProj env year event session driver lap

/-- `fetchTelemetryGear` of `part_000`. -/
def fetchTelemetryGear (env : Env) (year : Nat) (event session driver : String)
    (lap : Nat) : Except Err (List GearMapDataPoint) :=
  fetchTelemetryWith gearProj env year event session driver lap

/-- `fetchTelemetryThrottle` of `part_000`. -/
def fetchTelemetryThrottle (env : Env) (year : Nat) (event session driver : String)
    (lap : Nat) : Except Err (List ThrottleDataPoint) :=
  fetchTelemetryWith throttleProj env year event session driver lap

/-- `fetchTelemetryBrake` of `part_000`. -/
def fetchTelemetryBrake (env : Env) (year : Nat) (event session driver : String)
    (lap : Nat) : Except Err (List BrakeDataPoint) :=
  fetchTelemetryWith brakeProj env year event session driver lap

/-- `fetchTelemetryRPM` of `part_000`. -/
def fetchTelemetryRPM (env : Env) (year : Nat) (event session driver : String)
    (lap : Nat) : Except Err (List RPMDataPoint) :=
  fetchTelemetryWith rpmProj env year event session driver lap

/-- `fetchTelemetryDRS` of `part_000`. -/
def fetchTelemetryDRS (env : Env) (year : Nat) (event session driver : String)
    (lap : Nat) : Except Err (List DRSDataPoint) :=
  fetchTelemetryWith drsProj env year event session driver lap

/-- `fetchStintAnalysis` of `part_000`: returns an empty array as a
placeholder, touching none of its arguments. -/
def fetchStintAnalysis (_env : Env) (_year : Nat) (_event _session : String) :
    Except Err (List StintAnalysisData) :=
  Except.ok []

/-- `fetchRaceResults(year)` of `part_000`: resolve with the empty event
fragment, then fetch the results endpoint. -/
def fetchRaceResults (env : Env) (year : Nat) : Except Err (List RaceResult) :=
  match getMeetingKey env year "" with
  | Except.error e => Except.error e
  | Except.ok mk => env.raceResults mk

/-- `fetchSpecificRaceResults(year, event, session)` of `part_000`: the
`session` argument is received but never read. -/
def fetchSpecificRaceResults (env : Env) (year : Nat) (event _session : String) :
    Except Err (List DetailedRaceResult) :=
  match getMeetingKey env year event with
  | Except.error e => Except.error e
  | Except.ok mk => env.specificRaceResults year mk

/-- `fetchDriverStandings(year)` of `part_000`. -/
def fetchDriverStandings (env : Env) (year : Nat) : Except Err (List DriverStanding) :=
  match getMeetingKey env year "" with
  | Except.error e => Except.error e
  | Except.ok mk => env.driverStandings mk

/-- `fetchTeamStandings(year)` of `part_000`. -/
def fetchTeamStandings (env : Env) (year : Nat) : Except Err (List TeamStanding) :=
  match getMeetingKey env year "" with
  | Except.error e => Except.error e
  | Except.ok mk => env.teamStandings mk

/-- `fetchCarData(driverNumber, sessionKey, speedFilter?)` of
`src/src/lib/api.ts`: this one checks `response.ok` and throws an error
carrying the status code before parsing the body. -/
def fetchCarData (env : Env) (driverNumber sessionKey : Nat)
    (speedFilter : Option ℚ) : Except Err (List CarDataPoint) :=
  match env.carDataRaw driverNumber sessionKey speedFilter with
  | Except.error e => Except.error e
  | Except.ok response =>
      if response.ok then response.json
      else Except.error (Err.httpError response.status)

/-- One upstream GET request, identified by endpoint and query parameters. -/
inductive Request where
  | meetings (year : Nat) : Request
  | sessionsOf (meetingKey : Nat) : Request
  | lapsOf (sessionKey : Nat) (driver : String) : Request
  | carDataOf (sessionKey : Nat) (driver : String) (lap : Nat) : Request
  | specificRaceResultsOf (year : Nat) (meetingKey : Nat) : Request
deriving DecidableEq, Repr

/-- `fetchSpecificRaceResults` instrumented with the list of requests it
issues, in order: the meetings lookup of `getMeetingKey`, then — only if
resolution succeeded — the results request.  Derived line by line from the
same source; the `session` argument again never read. -/
def fetchSpecificRaceResultsTrace (env : Env) (year : Nat) (event _session : String) :
    List Request × Except Err (List DetailedRaceResult) :=
  match getMeetingKey env year event with
  | Except.error e => ([Request.meetings year], Except.error e)
  | Except.ok mk =>
      ([Request.meetings year, Request.specificRaceResultsOf year mk],
       env.specificRaceResults year mk)

/-- `List.find?` returns the first match: the list splits into a run of
non-matching elements followed by the found one. -/
theorem find?_split {α : Type} (p : α → Bool) :
    ∀ (l : List α) (a : α), l.find? p = some a →
      ∃ l₁ l₂, l = l₁ ++ a :: l₂ ∧ p a = true ∧ ∀ b ∈ l₁, p b = false := by
  intro l
  induction l with
  | nil => intro a h; simp at h
  | cons x xs ih =>
    intro a h
    by_cases hx : p x = true
    · have hax : a = x := by simp [List.find?_cons_of_pos _ hx] at h; exact h.symm
      exact ⟨[], xs, by simp [hax], hax ▸ hx, by simp⟩
    · rw [List.find?_cons_of_neg _ hx] at h
      obtain ⟨l₁, l₂, rfl, hpa, hall⟩ := ih a h
      refine ⟨x :: l₁, l₂, rfl, hpa, ?_⟩
      intro b hb
      rcases List.mem_cons.mp hb with rfl | hb2
      · exact Bool.not_eq_true _ ▸ (by simpa using hx)
      · exact hall b hb2

/-- If some member satisfies `p` then `List.find?` finds something. -/
theorem find?_isSome_of_mem {α : Type} (p : α → Bool) :
    ∀ (l : List α) (a : α), a ∈ l → p a = true → ∃ b, l.find? p = some b := by
  intro l
  induction l with
  | nil => intro a ha; simp at ha
  | cons x xs ih =>
    intro a ha hp
    by_cases hx : p x = true
    · exact ⟨x, List.find?_cons_of_pos _ hx⟩
    · rcases List.mem_cons.mp ha with rfl | ha2
      · exact absurd hp hx
      · obtain ⟨b, hb⟩ := ih a ha2 hp
        exact ⟨b, by rw [List.find?_cons_of_neg _ hx]; exact hb⟩

/-- If no member satisfies `p` then `List.find?` returns `none`. -/
theorem find?_none_of_all_false {α : Type} (p : α → Bool) :
    ∀ (l : List α), (∀ a ∈ l, p a = false) → l.find? p = none := by
  intro l
  induction l with
  | nil => intro _; rfl
  | cons x xs ih =>
    intro h
    rw [List.find?_cons_of_neg _ (by simp [h x (List.mem_cons_self x xs)])]
    exact ih (fun a ha => h a (List.mem_cons_of_mem x ha))

/-- The empty pattern is contained in every character list, as with
JavaScript `includes('')`. -/
theorem hasSubChars_nil (l : List Char) : hasSubChars [] l = true := by
  cases l with
  | nil => rfl
  | cons c hs => rfl

/-- An environment where every request fails at the network level; sample
environments below override the endpoints they need. -/
def baseEnv : Env where
  meetings := fun _ => Except.error Err.network
  sessions := fun _ => Except.error Err.network
  laps := fun _ _ => Except.error Err.network
  carData := fun _ _ _ => Except.error Err.network
  carDataRaw := fun _ _ _ => Except.error Err.network
  raceResults := fun _ => Except.error Err.network
  specificRaceResults := fun _ _ => Except.error Err.network
  driverStandings := fun _ => Except.error Err.network
  teamStandings := fun _ => Except.error Err.network

/-- Sample environment with three meetings (two containing "Monaco") and
two sessions, for exercising the resolvers on concrete data. -/
def resolveEnv : Env :=
  { baseEnv with
    meetings := fun _ => Except.ok
      [{ meeting_key := 5, name := "Bahrain Grand Prix" },
       { meeting_key := 6, name := "Monaco Grand Prix" },
       { meeting_key := 7, name := "Monaco Trophy" }],
    sessions := fun _ => Except.ok
      [{ session_key := 20, name := "Practice 1" },
       { session_key := 21, name := "Race" }] }

/-- C2: when at least one meeting of the year's list has a name containing
the event fragment case-insensitively, `getMeetingKey` returns the
`meeting_key` of the first such meeting in upstream order: the list splits
into a run of non-matching meetings followed by the chosen one.  Ambiguity
is not disambiguated beyond first-match-wins. -/
theorem getMeetingKey_first_match (env : Env) (year : Nat) (event : String)
    (ms : List Meeting) (hm : env.meetings year = Except.ok ms)
    (hex : ∃ m ∈ ms, includesCI m.name event = true) :
    ∃ pre m post,
      ms = pre ++ m :: post ∧
      includesCI m.name event = true ∧
      (∀ m2 ∈ pre, includesCI m2.name event = false) ∧
      getMeetingKey env year event = Except.ok m.meeting_key := by
  obtain ⟨m0, hmem, hp⟩ := hex
  obtain ⟨b, hb⟩ :=
    find?_isSome_of_mem (fun m => includesCI m.name event) ms m0 hmem hp
  obtain ⟨pre, post, rfl, hpb, hpre⟩ := find?_split _ _ _ hb
  exact ⟨pre, b, post, rfl, hpb, hpre, by simp [getMeetingKey, hm, hb]⟩

/-- C2 witness: at a concrete environment with two meetings containing
"Monaco", resolution picks the earlier one (key 6). -/
theorem getMeetingKey_first_match_witness :
    ∃ pre m post,
      ([{ meeting_key := 5, name := "Bahrain Grand Prix" },
        { meeting_key := 6, name := "Monaco Grand Prix" },
        { meeting_key := 7, name := "Monaco Trophy" }] : List Meeting) = pre ++ m :: post ∧
      includesCI m.name "MONACO" = true ∧
      (∀ m2 ∈ pre, includesCI m2.name "MONACO" = false) ∧
      getMeetingKey resolveEnv 2024 "MONACO" = Except.ok m.meeting_key :=
  getMeetingKey_first_match resolveEnv 2024 "MONACO" _ rfl
    ⟨{ meeting_key := 6, name := "Monaco Grand Prix" }, by decide, by decide⟩

/-- C8: `fetchStintAnalysis` resolves to the empty list for every
environment and every combination of arguments; it never errors and never
returns a non-empty result. -/
theorem fetchStintAnalysis_always_empty :
    ∀ (env : Env) (year : Nat) (event session : String),
      fetchStintAnalysis env year event session = Except.ok [] :=
  fun _ _ _ _ => rfl

/-- C10: `fetchSpecificRaceResults` does not depend on its `session`
argument: for any two session strings the instrumented run issues the same
request list and both runs return the same result, in every environment. -/
theorem fetchSpecificRaceResults_session_irrelevant :
    ∀ (env : Env) (year : Nat) (event s1 s2 : String),
      fetchSpecificRaceResultsTrace env year event s1 =
        fetchSpecificRaceResultsTrace env year event s2 ∧
      fetchSpecificRaceResults env year event s1 =
        fetchSpecificRaceResults env year event s2 :=
  fun _ _ _ _ _ => ⟨rfl, rfl⟩

/-- Sample environment extending `resolveEnv` with the lap lists of the
spec's worked merge example (driver "1": laps 1 and 2; driver "2": laps 1
and 3), served for session key 21. -/
def lapsEnv : Env :=
  { resolveEnv with
    laps := fun sk d =>
      if sk == 21 && d == "1" then
        Except.ok [{ lap_number := 1, lap_time := some (90.1 : ℚ) },
                   { lap_number := 2, lap_time := some (89.9 : ℚ) }]
      else if sk == 21 && d == "2" then
        Except.ok [{ lap_number := 1, lap_time := some (91 : ℚ) },
                   { lap_number := 3, lap_time := some (88.5 : ℚ) }]
      else Except.error Err.network }

/-- C1: the merge of `fetchLapTimes` updates an existing row in place when
one already carries the lap number (preserving the row sequence's lap
numbers) and appends a brand-new row otherwise; consequently, for drivers
`["1","2"]` with driver 1's laps `{1: 90.1, 2: 89.9}` and driver 2's laps
`{1: 91.0, 3: 88.5}`, the result is exactly three rows in first-sight
order: lap 1 with both columns, lap 2 with driver 1 only, lap 3 with
driver 2 only. -/
theorem fetchLapTimes_merge_spec (env : Env) (year : Nat)
    (event session : String) (mk sk : Nat)
    (hm : getMeetingKey env year event = Except.ok mk)
    (hs : getSessionKey env mk session = Except.ok sk)
    (h1 : env.laps sk "1" =
      Except.ok [{ lap_number := 1, lap_time := some (90.1 : ℚ) },
                 { lap_number := 2, lap_time := some (89.9 : ℚ) }])
    (h2 : env.laps sk "2" =
      Except.ok [{ lap_number := 1, lap_time := some (91 : ℚ) },
                 { lap_number := 3, lap_time := some (88.5 : ℚ) }]) :
    (∀ (d : String) (all : List LapTimeRow) (lap : Lap),
        (∀ r ∈ all, r.LapNumber ≠ lap.lap_number) →
        mergeOneLap d all lap =
          all ++ [{ LapNumber := lap.lap_number, cols := [(d, lap.lap_time)] }]) ∧
    (∀ (d : String) (all : List LapTimeRow) (lap : Lap),
        (∃ r ∈ all, r.LapNumber = lap.lap_number) →
        (mergeOneLap d all lap).map LapTimeRow.LapNumber =
          all.map LapTimeRow.LapNumber) ∧
    fetchLapTimes env year event session ["1", "2"] =
      Except.ok
        [{ LapNumber := 1, cols := [("1", some (90.1 : ℚ)), ("2", some (91 : ℚ))] },
         { LapNumber := 2, cols := [("1", some (89.9 : ℚ))] },
         { LapNumber := 3, cols := [("2", some (88.5 : ℚ))] }] := by
  refine ⟨?_, ?_, ?_⟩
  · intro d all lap hnone
    have hfind : all.find? (fun x => x.LapNumber == lap.lap_number) = none := by
      apply find?_none_of_all_false
      intro r hr
      simpa using hnone r hr
    simp [mergeOneLap, hfind]
  · intro d all lap hex
    obtain ⟨r, hr, hrn⟩ := hex
    obtain ⟨b, hb⟩ :=
      find?_isSome_of_mem (fun x => x.LapNumber == lap.lap_number) all r hr (by simpa using hrn)
    rw [mergeOneLap, hb, List.map_map]
    apply List.map_congr_left
    intro x _
    by_cases hx : x.LapNumber = lap.lap_number <;> simp [Function.comp, hx]
  · simp only [fetchLapTimes, hm, hs, lapTimesLoop, h1, h2]
    rfl

/-- C1 witness: the worked example evaluated at the concrete sample
environment. -/
theorem fetchLapTimes_merge_spec_witness :
    fetchLapTimes lapsEnv 2024 "Monaco" "race" ["1", "2"] =
      Except.ok
        [{ LapNumber := 1, cols := [("1", some (90.1 : ℚ)), ("2", some (91 : ℚ))] },
         { LapNumber := 2, cols := [("1", some (89.9 : ℚ))] },
         { LapNumber := 3, cols := [("2", some (88.5 : ℚ))] }] :=
  (fetchLapTimes_merge_spec lapsEnv 2024 "Monaco" "race" 6 21 rfl rfl rfl rfl).2.2

/-- C3: when no meeting name contains the event fragment, `getMeetingKey`
fails with the meeting-not-found error and every dependent operation
(`fetchTelemetrySpeed`, `fetchLapTimes`) returns that very error — no
default key is substituted, whatever the rest of the environment serves;
likewise an unmatched session name fails `getSessionKey` and aborts the
dependents with the session-not-found error. -/
theorem resolution_failure_aborts (env : Env) (year : Nat)
    (event session driver : String) (lap : Nat) (drivers : List String)
    (ms : List Meeting) (hm : env.meetings year = Except.ok ms) :
    ((∀ m ∈ ms, includesCI m.name event = false) →
        getMeetingKey env year event = Except.error (Err.meetingNotFound year event) ∧
        fetchTelemetrySpeed env year event session driver lap =
          Except.error (Err.meetingNotFound year event) ∧
        fetchLapTimes env year event session drivers =
          Except.error (Err.meetingNotFound year event)) ∧
    (∀ (mk : Nat) (sl : List Session), env.sessions mk = Except.ok sl →
        (∀ s ∈ sl, includesCI s.name session = false) →
        getSessionKey env mk session = Except.error (Err.sessionNotFound session mk)) ∧
    (∀ (mk : Nat) (sl : List Session),
        getMeetingKey env year event = Except.ok mk →
        env.sessions mk = Except.ok sl →
        (∀ s ∈ sl, includesCI s.name session = false) →
        fetchTelemetrySpeed env year event session driver lap =
          Except.error (Err.sessionNotFound session mk) ∧
        fetchLapTimes env year event session drivers =
          Except.error (Err.sessionNotFound session mk)) := by
  refine ⟨?_, ?_, ?_⟩
  · intro hnone
    have hfind : ms.find? (fun m => includesCI m.name event) = none :=
      find?_none_of_all_false _ ms hnone
    have hg : getMeetingKey env year event =
        Except.error (Err.meetingNotFound year event) := by
      simp [getMeetingKey, hm, hfind]
    exact ⟨hg, by simp [fetchTelemetrySpeed, fetchTelemetryWith, hg],
           by simp [fetchLapTimes, hg]⟩
  · intro mk sl hsl hnone
    have hfind : sl.find? (fun s => includesCI s.name session) = none :=
      find?_none_of_all_false _ sl hnone
    simp [getSessionKey, hsl, hfind]
  · intro mk sl hmk hsl hnone
    have hfind : sl.find? (fun s => includesCI s.name session) = none :=
      find?_none_of_all_false _ sl hnone
    have hg : getSessionKey env mk session =
        Except.error (Err.sessionNotFound session mk) := by
      simp [getSessionKey, hsl, hfind]
    exact ⟨by simp [fetchTelemetrySpeed, fetchTelemetryWith, hmk, hg],
           by simp [fetchLapTimes, hmk, hg]⟩

/-- C3 witness: at the concrete sample environment, the fragment "Suzuka"
matches none of the three meetings; the resolver and both dependents
return the not-found error. -/
theorem resolution_failure_aborts_witness :
    getMeetingKey resolveEnv 2024 "Suzuka" =
      Except.error (Err.meetingNotFound 2024 "Suzuka") ∧
    fetchTelemetrySpeed resolveEnv 2024 "Suzuka" "race" "44" 5 =
      Except.error (Err.meetingNotFound 2024 "Suzuka") ∧
    fetchLapTimes resolveEnv 2024 "Suzuka" "race" ["1", "2"] =
      Except.error (Err.meetingNotFound 2024 "Suzuka") :=
  (resolution_failure_aborts resolveEnv 2024 "Suzuka" "race" "44" 5 ["1", "2"]
    _ rfl).1 (by decide)

/-- Helper for C4: if some driver in the list has a failing lap fetch, the
sequential loop of `fetchLapTimes` ends in an error, whatever table was
accumulated so far. -/
theorem lapTimesLoop_error (fetchLaps : String → Except Err (List Lap)) :
    ∀ (ds : List String) (all : List LapTimeRow),
      (∃ d ∈ ds, ∃ e, fetchLaps d = Except.error e) →
      ∃ e, lapTimesLoop fetchLaps ds all = Except.error e := by
  intro ds
  induction ds with
  | nil => intro all h; simp at h
  | cons d0 rest ih =>
    intro all h
    obtain ⟨d, hd, e, he⟩ := h
    cases hfetch : fetchLaps d0 with
    | error e0 => exact ⟨e0, by simp [lapTimesLoop, hfetch]⟩
    | ok laps =>
      rcases List.mem_cons.mp hd with rfl | hd2
      · rw [hfetch] at he; simp at he
      · obtain ⟨e1, h1⟩ := ih (mergeDriverLaps d0 all laps) ⟨d, hd2, e, he⟩
        exact ⟨e1, by simp [lapTimesLoop, hfetch, h1]⟩

/-- C4: if any driver's lap fetch fails after key resolution, the whole
`fetchLapTimes` call fails — no partial table built from earlier drivers
is ever returned. -/
theorem fetchLapTimes_all_or_nothing (env : Env) (year : Nat)
    (event session : String) (drivers : List String) (mk sk : Nat)
    (hm : getMeetingKey env year event = Except.ok mk)
    (hs : getSessionKey env mk session = Except.ok sk)
    (hfail : ∃ d ∈ drivers, ∃ e, env.laps sk d = Except.error e) :
    ∃ e, fetchLapTimes env year event session drivers = Except.error e := by
  simp only [fetchLapTimes, hm, hs]
  exact lapTimesLoop_error (env.laps sk) drivers [] hfail

/-- C4 witness: driver "1" fetches fine but driver "9" fails at the
network level; the merge as a whole fails. -/
theorem fetchLapTimes_all_or_nothing_witness :
    ∃ e, fetchLapTimes lapsEnv 2024 "Monaco" "race" ["1", "9"] = Except.error e :=
  fetchLapTimes_all_or_nothing lapsEnv 2024 "Monaco" "race" ["1", "9"] 6 21
    rfl rfl ⟨"9", by decide, Err.network, rfl⟩

/-- Sample environment whose `car_data` endpoint answers with HTTP status
500 (`ok = false`) but a parseable empty JSON array. -/
def status500Env : Env :=
  { resolveEnv with
    carData := fun _ _ _ =>
      Except.ok { ok := false, status := 500, json := Except.ok [] } }

/-- C5 counterexample: the `fetchTelemetry*` operations of `part_000`
never inspect the HTTP status.  Against an upstream answering status 500
with a parseable body, `fetchTelemetrySpeed` succeeds with the parsed
(empty) sequence instead of surfacing an error carrying the status
code. -/
theorem telemetry_ignores_http_status_cex :
    status500Env.carData 21 "44" 5 =
      Except.ok { ok := false, status := 500, json := Except.ok ([] : List RawSample) } ∧
    fetchTelemetrySpeed status500Env 2024 "Monaco" "race" "44" 5 =
      Except.ok [] :=
  ⟨rfl, rfl⟩

/-- C5 (amended): `fetchCarData` of `src/src/lib/api.ts` surfaces a
non-success HTTP status as an error carrying the status code, and
otherwise returns exactly the body's parse outcome (so malformed JSON is
a parse error and an empty body a valid empty sequence).  The
`fetchTelemetry*` operations of `part_000` surface a parse error and
return empty sequences for empty bodies, but ignore the HTTP status
entirely: their result is the parse outcome mapped through the
projection, whatever `ok` and `status` are. -/
theorem metric_fetch_error_surfacing (env : Env) (dn skc : Nat) (sf : Option ℚ)
    (resp : HttpResponse (List CarDataPoint))
    (hr : env.carDataRaw dn skc sf = Except.ok resp)
    (year : Nat) (event session driver : String) (lap : Nat) (mk sk : Nat)
    (resp2 : HttpResponse (List RawSample))
    (hm : getMeetingKey env year event = Except.ok mk)
    (hs : getSessionKey env mk session = Except.ok sk)
    (hc : env.carData sk driver lap = Except.ok resp2) :
    (resp.ok = false →
      fetchCarData env dn skc sf = Except.error (Err.httpError resp.status)) ∧
    (resp.ok = true → fetchCarData env dn skc sf = resp.json) ∧
    (resp2.json = Except.error Err.parseError →
      fetchTelemetrySpeed env year event session driver lap =
        Except.error Err.parseError) ∧
    (∀ samples, resp2.json = Except.ok samples →
      fetchTelemetrySpeed env year event session driver lap =
        Except.ok (samples.map speedProj)) ∧
    (resp2.json = Except.ok [] →
      fetchTelemetrySpeed env year event session driver lap = Except.ok []) := by
  refine ⟨?_, ?_, ?_, ?_, ?_⟩
  · intro hok; simp [fetchCarData, hr, hok]
  · intro hok; simp [fetchCarData, hr, hok]
  · intro hj; simp [fetchTelemetrySpeed, fetchTelemetryWith, hm, hs, hc, hj]
  · intro samples hj
    simp [fetchTelemetrySpeed, fetchTelemetryWith, hm, hs, hc, hj]
  · intro hj; simp [fetchTelemetrySpeed, fetchTelemetryWith, hm, hs, hc, hj]

/-- Sample environment for the amended C5: the raw `fetchCarData` request
gets a 404, while the `part_000` telemetry request gets a healthy empty
body. -/
def mixedStatusEnv : Env :=
  { resolveEnv with
    carDataRaw := fun _ _ _ =>
      Except.ok { ok := false, status := 404, json := Except.ok [] },
    carData := fun _ _ _ =>
      Except.ok { ok := true, status := 200, json := Except.ok [] } }

/-- C5 witness: at the concrete mixed environment, `fetchCarData` carries
the 404 into its error while `fetchTelemetrySpeed` returns the valid empty
sequence. -/
theorem metric_fetch_error_surfacing_witness :
    fetchCarData mixedStatusEnv 44 21 none = Except.error (Err.httpError 404) ∧
    fetchTelemetrySpeed mixedStatusEnv 2024 "Monaco" "race" "44" 5 =
      Except.ok [] :=
  ⟨(metric_fetch_error_surfacing mixedStatusEnv 44 21 none _ rfl
      2024 "Monaco" "race" "44" 5 6 21 _ rfl rfl rfl).1 rfl,
   (metric_fetch_error_surfacing mixedStatusEnv 44 21 none _ rfl
      2024 "Monaco" "race" "44" 5 6 21 _ rfl rfl rfl).2.2.2.2 rfl⟩

/-- Four raw telemetry samples whose `drs` fields exercise every DRS
normalization case: string "1", string "0", number 0, and null. -/
def drsSamples : List RawSample :=
  [{ distance := 0, speed := 310, throttle := 99, brake := 0, rpm := 11000,
     n_gear := 8, longitude := 10, latitude := 20, drs := JsonVal.jstr "1" },
   { distance := 1, speed := 300, throttle := 95, brake := 0, rpm := 10500,
     n_gear := 8, longitude := 11, latitude := 21, drs := JsonVal.jstr "0" },
   { distance := 2, speed := 200, throttle := 50, brake := 1, rpm := 9000,
     n_gear := 5, longitude := 12, latitude := 22, drs := JsonVal.jnum 0 },
   { distance := 3, speed := 100, throttle := 0, brake := 1, rpm := 7000,
     n_gear := 3, longitude := 13, latitude := 23, drs := JsonVal.jnull }]

/-- Sample environment serving `drsSamples` from the `car_data` endpoint. -/
def drsEnv : Env :=
  { resolveEnv with
    carData := fun _ _ _ =>
      Except.ok { ok := true, status := 200, json := Except.ok drsSamples } }

/-- C6: `fetchTelemetryDRS` maps each sample through the normalization
`drs === '1' ? 1 : 0`: a `drs` field equal to the string "1" yields output
value 1, and every other value — the string "0", the number 0, null, or
anything else — yields 0. -/
theorem fetchTelemetryDRS_normalization (env : Env) (year : Nat)
    (event session driver : String) (lap : Nat) (mk sk : Nat)
    (resp : HttpResponse (List RawSample)) (samples : List RawSample)
    (hm : getMeetingKey env year event = Except.ok mk)
    (hs : getSessionKey env mk session = Except.ok sk)
    (hc : env.carData sk driver lap = Except.ok resp)
    (hj : resp.json = Except.ok samples) :
    fetchTelemetryDRS env year event session driver lap =
      Except.ok (samples.map drsProj) ∧
    (∀ p : RawSample, (drsProj p).DRS = drsValue p.drs) ∧
    drsValue (JsonVal.jstr "1") = 1 ∧
    (∀ v : JsonVal, v ≠ JsonVal.jstr "1" → drsValue v = 0) ∧
    drsValue (JsonVal.jstr "0") = 0 ∧
    drsValue (JsonVal.jnum 0) = 0 ∧
    drsValue JsonVal.jnull = 0 := by
  refine ⟨?_, fun p => rfl, rfl, ?_, rfl, rfl, rfl⟩
  · simp [fetchTelemetryDRS, fetchTelemetryWith, hm, hs, hc, hj]
  · intro v hv; simp [drsValue, hv]

/-- C6 witness: the four-sample environment evaluates to DRS values
1, 0, 0, 0. -/
theorem fetchTelemetryDRS_normalization_witness :
    fetchTelemetryDRS drsEnv 2024 "Monaco" "race" "44" 5 =
      Except.ok
        [{ Distance := 0, DRS := 1 }, { Distance := 1, DRS := 0 },
         { Distance := 2, DRS := 0 }, { Distance := 3, DRS := 0 }] :=
  (fetchTelemetryDRS_normalization drsEnv 2024 "Monaco" "race" "44" 5 6 21
    _ drsSamples rfl rfl rfl rfl).1

/-- The relation "`r` succeeded with exactly one output point per input
sample, in input order, the i-th point being the projection of the i-th
sample". -/
def projectsPointwise {α : Type} (f : RawSample → α) (samples : List RawSample)
    (r : Except Err (List α)) : Prop :=
  ∃ out, r = Except.ok out ∧ out.length = samples.length ∧
    ∀ (i : Nat) (hi : i < samples.length) (ho : i < out.length),
      out.get ⟨i, ho⟩ = f (samples.get ⟨i, hi⟩)

/-- Helper for C7: a mapped list satisfies `projectsPointwise`. -/
theorem map_projectsPointwise {α : Type} (f : RawSample → α)
    (samples : List RawSample) :
    projectsPointwise f samples (Except.ok (samples.map f)) := by
  refine ⟨samples.map f, rfl, List.length_map _ _, ?_⟩
  intro i hi ho
  simp [List.get_eq_getElem, List.getElem_map]

/-- C7: each of the six metric projections returns exactly one output
point per raw sample, in the input order, the i-th output being the
projection of the i-th sample — no filtering, sorting, or deduplication. -/
theorem telemetry_projections_pointwise (env : Env) (year : Nat)
    (event session driver : String) (lap : Nat) (mk sk : Nat)
    (resp : HttpResponse (List RawSample)) (samples : List RawSample)
    (hm : getMeetingKey env year event = Except.ok mk)
    (hs : getSessionKey env mk session = Except.ok sk)
    (hc : env.carData sk driver lap = Except.ok resp)
    (hj : resp.json = Except.ok samples) :
    projectsPointwise speedProj samples
      (fetchTelemetrySpeed env year event session driver lap) ∧
    projectsPointwise gearProj samples
      (fetchTelemetryGear env year event session driver lap) ∧
    projectsPointwise throttleProj samples
      (fetchTelemetryThrottle env year event session driver lap) ∧
    projectsPointwise brakeProj samples
      (fetchTelemetryBrake env year event session driver lap) ∧
    projectsPointwise rpmProj samples
      (fetchTelemetryRPM env year event session driver lap) ∧
    projectsPointwise drsProj samples
      (fetchTelemetryDRS env year event session driver lap) := by
  have key : ∀ {α : Type} (f : RawSample → α),
      fetchTelemetryWith f env year event session driver lap =
        Except.ok (samples.map f) := by
    intro α f
    simp [fetchTelemetryWith, hm, hs, hc, hj]
  refine ⟨?_, ?_, ?_, ?_, ?_, ?_⟩ <;>
    · simp only [fetchTelemetrySpeed, fetchTelemetryGear, fetchTelemetryThrottle,
        fetchTelemetryBrake, fetchTelemetryRPM, fetchTelemetryDRS, key]
      exact map_projectsPointwise _ _

/-- C7 witness: at the four-sample environment, all six projections are
pointwise and length-preserving. -/
theorem telemetry_projections_pointwise_witness :
    projectsPointwise speedProj drsSamples
      (fetchTelemetrySpeed drsEnv 2024 "Monaco" "race" "44" 5) ∧
    projectsPointwise gearProj drsSamples
      (fetchTelemetryGear drsEnv 2024 "Monaco" "race" "44" 5) ∧
    projectsPointwise throttleProj drsSamples
      (fetchTelemetryThrottle drsEnv 2024 "Monaco" "race" "44" 5) ∧
    projectsPointwise brakeProj drsSamples
      (fetchTelemetryBrake drsEnv 2024 "Monaco" "race" "44" 5) ∧
    projectsPointwise rpmProj drsSamples
      (fetchTelemetryRPM drsEnv 2024 "Monaco" "race" "44" 5) ∧
    projectsPointwise drsProj drsSamples
      (fetchTelemetryDRS drsEnv 2024 "Monaco" "race" "44" 5) :=
  telemetry_projections_pointwise drsEnv 2024 "Monaco" "race" "44" 5 6 21
    _ drsSamples rfl rfl rfl rfl

/-- Sample environment serving concrete standings and results. -/
def standingsEnv : Env :=
  { resolveEnv with
    driverStandings := fun _ =>
      Except.ok [{ rank := 1, code := "VER", name := "Max Verstappen",
                   team := "Red Bull", points := 400, wins := 10, podiums := 14 }],
    teamStandings := fun _ =>
      Except.ok [{ rank := 1, team := "Red Bull", points := 620, wins := 12,
                   podiums := 20 }],
    raceResults := fun _ => Except.ok [] }

/-- C9: with a non-empty meeting list, resolving the empty event fragment
succeeds with the first-listed meeting's key (every name contains the
empty string), so `fetchDriverStandings`, `fetchTeamStandings` and
`fetchRaceResults` return exactly the upstream response for that first
meeting's key; with an empty meeting list they all fail with the
meeting-not-found error. -/
theorem empty_fragment_first_meeting (env : Env) (year : Nat) :
    (∀ (m : Meeting) (ms : List Meeting),
        env.meetings year = Except.ok (m :: ms) →
        getMeetingKey env year "" = Except.ok m.meeting_key ∧
        fetchDriverStandings env year = env.driverStandings m.meeting_key ∧
        fetchTeamStandings env year = env.teamStandings m.meeting_key ∧
        fetchRaceResults env year = env.raceResults m.meeting_key) ∧
    (env.meetings year = Except.ok [] →
        getMeetingKey env year "" = Except.error (Err.meetingNotFound year "") ∧
        fetchDriverStandings env year = Except.error (Err.meetingNotFound year "") ∧
        fetchTeamStandings env year = Except.error (Err.meetingNotFound year "") ∧
        fetchRaceResults env year = Except.error (Err.meetingNotFound year "")) := by
  constructor
  · intro m ms hm
    have hmatch : includesCI m.name "" = true := by
      show hasSubChars (lowerChars "") (lowerChars m.name) = true
      exact hasSubChars_nil _
    have hfind : (m :: ms).find? (fun x => includesCI x.name "") = some m :=
      List.find?_cons_of_pos _ hmatch
    have hg : getMeetingKey env year "" = Except.ok m.meeting_key := by
      simp [getMeetingKey, hm, hfind]
    exact ⟨hg, by simp [fetchDriverStandings, hg],
           by simp [fetchTeamStandings, hg], by simp [fetchRaceResults, hg]⟩
  · intro hm
    have hg : getMeetingKey env year "" =
        Except.error (Err.meetingNotFound year "") := by
      simp [getMeetingKey, hm, List.find?]
    exact ⟨hg, by simp [fetchDriverStandings, hg],
           by simp [fetchTeamStandings, hg], by simp [fetchRaceResults, hg]⟩

/-- C9 witness: at the concrete standings environment the empty fragment
resolves to the first meeting (key 5) and the three year-level lookups
return that meeting's upstream data. -/
theorem empty_fragment_first_meeting_witness :
    getMeetingKey standingsEnv 2024 "" = Except.ok 5 ∧
    fetchDriverStandings standingsEnv 2024 = standingsEnv.driverStandings 5 ∧
    fetchTeamStandings standingsEnv 2024 = standingsEnv.teamStandings 5 ∧
    fetchRaceResults standingsEnv 2024 = standingsEnv.raceResults 5 :=
  (empty_fragment_first_meeting standingsEnv 2024).1
    { meeting_key := 5, name := "Bahrain Grand Prix" }
    [{ meeting_key := 6, name := "Monaco Grand Prix" },
     { meeting_key := 7, name := "Monaco Trophy" }] rfl
